import Mathlib

/-!
Verification of the `crossterm_terminal` facade (`src/crossterm_terminal/terminal.rs`).

The repository file under verification is the `Terminal` facade: a struct holding an
optional boxed `ITerminal` backend and a shared `Context`, whose public operations
(`clear`, `terminal_size`, `scroll_up`, `scroll_down`, `set_size`) forward to the
backend when present and degrade to documented defaults when absent.

The backend trait `ITerminal`, the `ClearType` enumeration, the `Context` cache, the
concrete backends `AnsiTerminal` / `WinApiTerminal`, and the Windows selector
`get_module` live in sibling modules that are not part of the source tree here; they
are modelled from the specification where noted.

Backend interaction is made observable by instrumenting every facade operation with
an event trace: the list of calls the facade issues into the backend during that
operation. Terminal-world effects (the display buffer, the scroll offset, the
reported size) are an explicit `TermState` threaded through the backend's
operations.
-/

namespace Crossterm

/-- Modelled from the spec: `ClearType` (defined in `base_terminal`, not in the
source tree) is a closed enumeration of the five regions a clear operation can
target: {All, FromCursorDown, FromCursorUp, CurrentLine, UntilNewLine}. -/
inductive ClearType where
  | All
  | FromCursorDown
  | FromCursorUp
  | CurrentLine
  | UntilNewLine
  deriving DecidableEq, Repr

/-- Modelled from the spec: the observable state of the attached terminal that
backend operations read and write — its reported dimensions, the scroll offset of
the visible window's top line, and a record of which regions have been cleared. -/
structure TermState where
  width : Nat
  height : Nat
  top : Int
  cleared : List ClearType
  deriving DecidableEq, Repr

/-- Modelled from the spec: the Capability Interface `ITerminal` (defined in
`base_terminal`, not in the source tree) — the abstract operation set every backend
implements: clear, get-size, scroll, set-size. `terminal_size` is a pure query of
the terminal state; the mutating operations transform the terminal state. -/
structure ITerminal where
  clear : ClearType → TermState → TermState
  terminal_size : TermState → Nat × Nat
  scroll_up : Int → TermState → TermState
  scroll_down : Int → TermState → TermState
  set_size : Int → Int → TermState → TermState

/-- Modelled from the spec: the ANSI Backend (`AnsiTerminal`, not in the source
tree) implements each operation against the terminal state: `clear` erases the
region named by the `ClearType`, `scroll_up`/`scroll_down` shift the visible window
by `count` lines in the given direction, `terminal_size` reads the current
dimensions, `set_size` requests the given dimensions. -/
def AnsiTerminal.new : ITerminal where
  clear := fun clear_type s => { s with cleared := clear_type :: s.cleared }
  terminal_size := fun s => (s.width, s.height)
  scroll_up := fun count s => { s with top := s.top - count }
  scroll_down := fun count s => { s with top := s.top + count }
  set_size := fun width height s => { s with width := width.toNat, height := height.toNat }

/-- Modelled from the spec: the Native-Console Backend (`WinApiTerminal`, not in
the source tree) implements the same four operations via console-management calls;
its observable contract on the terminal state is the same as the ANSI backend's. -/
def WinApiTerminal.new : ITerminal where
  clear := fun clear_type s => { s with cleared := clear_type :: s.cleared }
  terminal_size := fun s => (s.width, s.height)
  scroll_up := fun count s => { s with top := s.top - count }
  scroll_down := fun count s => { s with top := s.top + count }
  set_size := fun width height s => { s with width := width.toNat, height := height.toNat }

/-- Modelled from the spec: the Shared Context (not in the source tree) is a
lazily-populated cache of a platform resource handle, owned by one Terminal. -/
structure Context where
  cachedHandle : Option Nat
  deriving DecidableEq, Repr

/-- Modelled from the spec: `Context::new` starts with nothing cached. -/
def Context.new : Context := { cachedHandle := none }

/-- Modelled from the spec: the compile-time and runtime facts the backend
selection consults — whether this is the platform with native console support,
whether Native-Console backend construction succeeds, whether a capability probe
indicates escape-sequence control is preferred, and whether a terminal is attached
(so that the ANSI fallback can be constructed at all). -/
structure Platform where
  isWindows : Bool
  nativeConstructionOk : Bool
  prefersAnsi : Bool
  terminalAttached : Bool
  deriving DecidableEq, Repr

/-- Modelled from the spec: `get_module` (in `shared::functions`, not in the source
tree) — the Windows-side selector. It attempts to obtain the Native-Console
backend; if that construction fails or the capability probe indicates
escape-sequence control is preferred, it falls back to the ANSI backend; the
result is exactly one concrete backend, or none when no backend can be constructed
at all (e.g. no attached terminal). It receives the shared context mutably. -/
def get_module (winapiImpl ansiImpl : ITerminal) (p : Platform) (c : Context) :
    Option ITerminal × Context :=
  if p.nativeConstructionOk && !p.prefersAnsi then (some winapiImpl, c)
  else if p.terminalAttached then (some ansiImpl, c)
  else (none, c)

/-- An observable event of the facade: the construction-time backend-selection
decision, or one call issued into the selected backend. -/
inductive Event where
  | selectorRun
  | clearCall (clear_type : ClearType)
  | sizeCall
  | scrollUpCall (count : Int)
  | scrollDownCall (count : Int)
  | setSizeCall (width height : Int)
  deriving DecidableEq, Repr

/-- The `Terminal` struct of `terminal.rs`: an optional platform backend and the
shared context. -/
structure Terminal where
  terminal : Option ITerminal
  context : Context

/-- The backend-selection performed inside `Terminal::new` (`terminal.rs` lines
27–31): on Windows, `get_module(WinApiTerminal::new(), AnsiTerminal::new(), &mut
context)`; on every other platform, unconditionally `Some(AnsiTerminal::new())`. -/
def select (p : Platform) (c : Context) : Option ITerminal × Context :=
  if p.isWindows then get_module WinApiTerminal.new AnsiTerminal.new p c
  else (some AnsiTerminal.new, c)

/-- `Terminal::new` (`terminal.rs` lines 24–34): build a fresh context, run the
backend selection once, and store the optional backend with the context. The
event trace records the single selection decision. -/
def Terminal.new (p : Platform) : Terminal × List Event :=
  let context := Context.new
  let sel := select p context
  ({ terminal := sel.1, context := sel.2 }, [Event.selectorRun])

/-- `Terminal::clear` (`terminal.rs` lines 59–63): if a backend is present,
forward the call; otherwise do nothing. -/
def Terminal.clear (t : Terminal) (clear_type : ClearType) (s : TermState) :
    Terminal × TermState × List Event :=
  match t.terminal with
  | some terminal => (t, terminal.clear clear_type s, [Event.clearCall clear_type])
  | none => (t, s, [])

/-- `Terminal::terminal_size` (`terminal.rs` lines 80–85): if a backend is
present, return its query result; otherwise return `(0,0)`. -/
def Terminal.terminal_size (t : Terminal) (s : TermState) :
    Terminal × TermState × (Nat × Nat) × List Event :=
  match t.terminal with
  | some terminal => (t, s, terminal.terminal_size s, [Event.sizeCall])
  | none => (t, s, (0, 0), [])

/-- `Terminal::scroll_up` (`terminal.rs` lines 102–106): if a backend is present,
forward the call; otherwise do nothing. -/
def Terminal.scroll_up (t : Terminal) (count : Int) (s : TermState) :
    Terminal × TermState × List Event :=
  match t.terminal with
  | some terminal => (t, terminal.scroll_up count s, [Event.scrollUpCall count])
  | none => (t, s, [])

/-- `Terminal::scroll_down` (`terminal.rs` lines 123–127): if a backend is
present, forward the call; otherwise do nothing. -/
def Terminal.scroll_down (t : Terminal) (count : Int) (s : TermState) :
    Terminal × TermState × List Event :=
  match t.terminal with
  | some terminal => (t, terminal.scroll_down count s, [Event.scrollDownCall count])
  | none => (t, s, [])

/-- `Terminal::set_size` (`terminal.rs` lines 144–149): if a backend is present,
forward the call; otherwise do nothing. -/
def Terminal.set_size (t : Terminal) (width height : Int) (s : TermState) :
    Terminal × TermState × List Event :=
  match t.terminal with
  | some terminal => (t, terminal.set_size width height s, [Event.setSizeCall width height])
  | none => (t, s, [])

/-- The factory `terminal()` (`terminal.rs` lines 170–173): `Box::from
(Terminal::new())`; boxing is the identity in the embedding. -/
def terminal (p : Platform) : Terminal × List Event := Terminal.new p

/-- One public operation of the facade, for reasoning about arbitrary sequences
of calls. -/
inductive Op where
  | clear (clear_type : ClearType)
  | terminal_size
  | scroll_up (count : Int)
  | scroll_down (count : Int)
  | set_size (width height : Int)
  deriving DecidableEq, Repr

/-- Dispatch one public operation on the facade. -/
def Terminal.step (t : Terminal) (op : Op) (s : TermState) :
    Terminal × TermState × List Event :=
  match op with
  | .clear clear_type => t.clear clear_type s
  | .terminal_size =>
      let r := t.terminal_size s
      (r.1, r.2.1, r.2.2.2)
  | .scroll_up count => t.scroll_up count s
  | .scroll_down count => t.scroll_down count s
  | .set_size width height => t.set_size width height s

/-- Run a sequence of public operations, threading the facade and the terminal
state and concatenating the event traces. -/
def Terminal.run (t : Terminal) (ops : List Op) (s : TermState) :
    Terminal × TermState × List Event :=
  match ops with
  | [] => (t, s, [])
  | op :: rest =>
      let r := t.step op s
      let r2 := r.1.run rest r.2.1
      (r2.1, r2.2.1, r.2.2 ++ r2.2.2)

/-- A concrete terminal state used to instantiate universally quantified claims. -/
def sampleState : TermState := { width := 80, height := 24, top := 0, cleared := [] }

/-- A concrete facade holding the ANSI backend. -/
def ansiTerm : Terminal := { terminal := some AnsiTerminal.new, context := Context.new }

/-- A concrete facade in the backend-absent state. -/
def absentTerm : Terminal := { terminal := none, context := Context.new }

lemma step_fst (t : Terminal) (op : Op) (s : TermState) : (t.step op s).1 = t := by
  cases op <;> cases ht : t.terminal <;>
    simp [Terminal.step, Terminal.clear, Terminal.terminal_size, Terminal.scroll_up,
      Terminal.scroll_down, Terminal.set_size, ht]

lemma step_no_selector (t : Terminal) (op : Op) (s : TermState) :
    Event.selectorRun ∉ (t.step op s).2.2 := by
  cases op <;> cases ht : t.terminal <;>
    simp [Terminal.step, Terminal.clear, Terminal.terminal_size, Terminal.scroll_up,
      Terminal.scroll_down, Terminal.set_size, ht]

lemma run_fst (t : Terminal) (ops : List Op) (s : TermState) : (t.run ops s).1 = t := by
  induction ops generalizing t s with
  | nil => rfl
  | cons op rest ih => simp [Terminal.run, ih, step_fst]

lemma run_no_selector (t : Terminal) (ops : List Op) (s : TermState) :
    Event.selectorRun ∉ (t.run ops s).2.2 := by
  induction ops generalizing t s with
  | nil => simp [Terminal.run]
  | cons op rest ih =>
      simp only [Terminal.run, List.mem_append]
      push_neg
      exact ⟨step_no_selector t op s, ih _ _⟩

/-- Claim C1: for every Terminal whose selected backend is absent, `clear` with any
ClearType, `scroll_up` and `scroll_down` with any count, and `set_size` with any
width and height complete with no backend call, no change to the facade, and no
change to the terminal state, and `terminal_size` returns exactly (0,0). -/
theorem backend_absent_defaults (t : Terminal) (h : t.terminal = none)
    (clear_type : ClearType) (n m w k : Int) (s : TermState) :
    t.clear clear_type s = (t, s, []) ∧
    t.scroll_up n s = (t, s, []) ∧
    t.scroll_down m s = (t, s, []) ∧
    t.set_size w k s = (t, s, []) ∧
    t.terminal_size s = (t, s, (0, 0), []) := by
  simp [Terminal.clear, Terminal.scroll_up, Terminal.scroll_down, Terminal.set_size,
    Terminal.terminal_size, h]

/-- Witness for claim C1: the backend-absent facade at concrete arguments. -/
theorem backend_absent_defaults_witness :
    absentTerm.terminal = none ∧
    (absentTerm.clear ClearType.All sampleState = (absentTerm, sampleState, []) ∧
     absentTerm.scroll_up 1 sampleState = (absentTerm, sampleState, []) ∧
     absentTerm.scroll_down 2 sampleState = (absentTerm, sampleState, []) ∧
     absentTerm.set_size 3 4 sampleState = (absentTerm, sampleState, []) ∧
     absentTerm.terminal_size sampleState = (absentTerm, sampleState, (0, 0), [])) :=
  ⟨rfl, backend_absent_defaults absentTerm rfl ClearType.All 1 2 3 4 sampleState⟩

/-- Claim C2: for every Terminal whose backend is present, each public operation
forwards the call to that backend with its arguments unchanged, issues exactly one
backend call, and returns the backend's result unchanged (for `terminal_size`) or
no value (for the mutating operations). -/
theorem backend_present_forwarding (t : Terminal) (b : ITerminal)
    (h : t.terminal = some b) (clear_type : ClearType) (n m w k : Int) (s : TermState) :
    t.clear clear_type s = (t, b.clear clear_type s, [Event.clearCall clear_type]) ∧
    t.terminal_size s = (t, s, b.terminal_size s, [Event.sizeCall]) ∧
    t.scroll_up n s = (t, b.scroll_up n s, [Event.scrollUpCall n]) ∧
    t.scroll_down m s = (t, b.scroll_down m s, [Event.scrollDownCall m]) ∧
    t.set_size w k s = (t, b.set_size w k s, [Event.setSizeCall w k]) := by
  simp [Terminal.clear, Terminal.terminal_size, Terminal.scroll_up, Terminal.scroll_down,
    Terminal.set_size, h]

/-- Witness for claim C2: the ANSI-backed facade at concrete arguments. -/
theorem backend_present_forwarding_witness :
    ansiTerm.terminal = some AnsiTerminal.new ∧
    (ansiTerm.clear ClearType.CurrentLine sampleState =
        (ansiTerm, AnsiTerminal.new.clear ClearType.CurrentLine sampleState,
          [Event.clearCall ClearType.CurrentLine]) ∧
     ansiTerm.terminal_size sampleState =
        (ansiTerm, sampleState, AnsiTerminal.new.terminal_size sampleState, [Event.sizeCall]) ∧
     ansiTerm.scroll_up 5 sampleState =
        (ansiTerm, AnsiTerminal.new.scroll_up 5 sampleState, [Event.scrollUpCall 5]) ∧
     ansiTerm.scroll_down 6 sampleState =
        (ansiTerm, AnsiTerminal.new.scroll_down 6 sampleState, [Event.scrollDownCall 6]) ∧
     ansiTerm.set_size 10 10 sampleState =
        (ansiTerm, AnsiTerminal.new.set_size 10 10 sampleState, [Event.setSizeCall 10 10])) :=
  ⟨rfl, backend_present_forwarding ansiTerm AnsiTerminal.new rfl ClearType.CurrentLine
      5 6 10 10 sampleState⟩

/-- Claim C3: on every platform without native console support, construction always
selects the ANSI backend — the stored backend option is `some AnsiTerminal.new`,
never `none`, regardless of whether a terminal is attached. -/
theorem non_windows_always_ansi (p : Platform) (h : p.isWindows = false) :
    (Terminal.new p).1.terminal = some AnsiTerminal.new := by
  simp [Terminal.new, select, h]

/-- Witness for claim C3: a non-Windows platform with no terminal attached still
gets the ANSI backend. -/
theorem non_windows_always_ansi_witness :
    (Platform.mk false false false false).isWindows = false ∧
    (Terminal.new (Platform.mk false false false false)).1.terminal = some AnsiTerminal.new :=
  ⟨rfl, non_windows_always_ansi (Platform.mk false false false false) rfl⟩

/-- Claim C4: the backend-selection decision runs exactly once, during
construction — the construction trace is exactly the single selection event — and
for every sequence of public operations the selection event never occurs again and
the stored backend option is never re-decided. -/
theorem selector_runs_once (p : Platform) (t : Terminal) (ops : List Op) (s : TermState) :
    (Terminal.new p).2 = [Event.selectorRun] ∧
    Event.selectorRun ∉ (t.run ops s).2.2 ∧
    (t.run ops s).1.terminal = t.terminal := by
  refine ⟨rfl, run_no_selector t ops s, ?_⟩
  rw [run_fst]

/-- Claim C5: on the platform with native console support, the selector yields the
Native-Console backend whenever its construction succeeds and the capability probe
does not prefer escape sequences; it yields the ANSI backend only as a fallback
when native construction fails or the probe prefers escape sequences; and when no
backend can be constructed at all it yields none. -/
theorem get_module_prefers_native (win ansi : ITerminal) (p : Platform) (c : Context) :
    (p.nativeConstructionOk = true → p.prefersAnsi = false →
      (get_module win ansi p c).1 = some win) ∧
    ((p.nativeConstructionOk = false ∨ p.prefersAnsi = true) → p.terminalAttached = true →
      (get_module win ansi p c).1 = some ansi) ∧
    ((p.nativeConstructionOk = false ∨ p.prefersAnsi = true) → p.terminalAttached = false →
      (get_module win ansi p c).1 = none) := by
  refine ⟨fun h1 h2 => ?_, fun h1 h2 => ?_, fun h1 h2 => ?_⟩
  · simp [get_module, h1, h2]
  · rcases h1 with h1 | h1 <;> simp [get_module, h1, h2]
  · rcases h1 with h1 | h1 <;> simp [get_module, h1, h2]

/-- Witness for claim C5: with native construction succeeding and no ANSI
preference, the selector returns the native backend. -/
theorem get_module_prefers_native_witness :
    (Platform.mk true true false true).nativeConstructionOk = true ∧
    (Platform.mk true true false true).prefersAnsi = false ∧
    (get_module WinApiTerminal.new AnsiTerminal.new (Platform.mk true true false true)
        Context.new).1 = some WinApiTerminal.new :=
  ⟨rfl, rfl,
    (get_module_prefers_native WinApiTerminal.new AnsiTerminal.new
        (Platform.mk true true false true) Context.new).1 rfl rfl⟩

/-- Claim C6: construction always succeeds and returns a Terminal value — the
factory `terminal` is exactly `Terminal.new`, a total function; when the selection
yields no backend the constructed Terminal stores the backend-absent state, and
every subsequent operation then produces its documented safe default. -/
theorem construction_never_fails (p : Platform) (clear_type : ClearType)
    (n m w k : Int) (s : TermState) :
    terminal p = Terminal.new p ∧
    ((select p Context.new).1 = none → (Terminal.new p).1.terminal = none) ∧
    ((Terminal.new p).1.terminal = none →
      (Terminal.new p).1.clear clear_type s = ((Terminal.new p).1, s, []) ∧
      (Terminal.new p).1.scroll_up n s = ((Terminal.new p).1, s, []) ∧
      (Terminal.new p).1.scroll_down m s = ((Terminal.new p).1, s, []) ∧
      (Terminal.new p).1.set_size w k s = ((Terminal.new p).1, s, []) ∧
      (Terminal.new p).1.terminal_size s = ((Terminal.new p).1, s, (0, 0), [])) := by
  refine ⟨rfl, fun h => h, fun h => ?_⟩
  simp [Terminal.clear, Terminal.scroll_up, Terminal.scroll_down, Terminal.set_size,
    Terminal.terminal_size, h]

/-- Witness for claim C6: a Windows platform where native construction fails and no
terminal is attached still constructs a Terminal, in the backend-absent state, and
its size query answers (0,0). -/
theorem construction_never_fails_witness :
    (select (Platform.mk true false false false) Context.new).1 = none ∧
    (Terminal.new (Platform.mk true false false false)).1.terminal = none ∧
    (Terminal.new (Platform.mk true false false false)).1.terminal_size sampleState =
      ((Terminal.new (Platform.mk true false false false)).1, sampleState, (0, 0), []) :=
  ⟨rfl, rfl,
    ((construction_never_fails (Platform.mk true false false false) ClearType.All
        1 2 3 4 sampleState).2.2 rfl).2.2.2.2⟩

/-- Claim C7: no public operation surfaces an error. A scroll call with negative
or zero count is processed exactly like any other — silently dropped when the
backend is absent or forwarded as-is when present, never rejected — and
`terminal_size` answers with a plain pair, encoding degradation as (0,0) rather
than as an error value. -/
theorem no_error_surfaced (t : Terminal) (n : Int) (_hn : n ≤ 0) (s : TermState) :
    ((t.scroll_up n s).2.2 = [] ∨ (t.scroll_up n s).2.2 = [Event.scrollUpCall n]) ∧
    ((t.scroll_down n s).2.2 = [] ∨ (t.scroll_down n s).2.2 = [Event.scrollDownCall n]) ∧
    (t.terminal = none → (t.terminal_size s).2.2.1 = (0, 0)) := by
  cases ht : t.terminal <;>
    simp [Terminal.scroll_up, Terminal.scroll_down, Terminal.terminal_size, ht]

/-- Witness for claim C7: a negative scroll count on the backend-absent facade. -/
theorem no_error_surfaced_witness :
    (-3 : Int) ≤ 0 ∧
    (((absentTerm.scroll_up (-3) sampleState).2.2 = [] ∨
      (absentTerm.scroll_up (-3) sampleState).2.2 = [Event.scrollUpCall (-3)]) ∧
     ((absentTerm.scroll_down (-3) sampleState).2.2 = [] ∨
      (absentTerm.scroll_down (-3) sampleState).2.2 = [Event.scrollDownCall (-3)]) ∧
     (absentTerm.terminal = none → (absentTerm.terminal_size sampleState).2.2.1 = (0, 0))) :=
  ⟨by decide, no_error_surfaced absentTerm (-3) (by decide) sampleState⟩

/-- Claim C8: calling `terminal_size` twice in succession, with no intervening
operation on the terminal, returns identical values both times. -/
theorem terminal_size_idempotent (t : Terminal) (s : TermState) :
    ((t.terminal_size s).1.terminal_size (t.terminal_size s).2.1).2.2.1 =
      (t.terminal_size s).2.2.1 := by
  cases ht : t.terminal <;> simp [Terminal.terminal_size, ht]

/-- Claim C9: for a Terminal whose backend supports scrolling (either concrete
backend), `scroll_up n` followed by `scroll_down n` returns the visible window to
its original top line. -/
theorem scroll_round_trip (t : Terminal) (n : Int) (s : TermState)
    (h : t.terminal = some AnsiTerminal.new ∨ t.terminal = some WinApiTerminal.new) :
    ((t.scroll_up n s).1.scroll_down n (t.scroll_up n s).2.1).2.1.top = s.top := by
  rcases h with h | h <;>
    simp [Terminal.scroll_up, Terminal.scroll_down, AnsiTerminal.new, WinApiTerminal.new, h]

/-- Witness for claim C9: scrolling up then down by 5 on the ANSI-backed facade
restores the top line. -/
theorem scroll_round_trip_witness :
    (ansiTerm.terminal = some AnsiTerminal.new ∨
      ansiTerm.terminal = some WinApiTerminal.new) ∧
    ((ansiTerm.scroll_up 5 sampleState).1.scroll_down 5
        (ansiTerm.scroll_up 5 sampleState).2.1).2.1.top = sampleState.top :=
  ⟨Or.inl rfl, scroll_round_trip ansiTerm 5 sampleState (Or.inl rfl)⟩

/-- Claim C10: every sequence of public operations leaves both fields of the
Terminal unchanged — the selected backend option and the shared context after the
run are identical to their values before it. -/
theorem ops_preserve_fields (t : Terminal) (ops : List Op) (s : TermState) :
    (t.run ops s).1.terminal = t.terminal ∧ (t.run ops s).1.context = t.context := by
  rw [run_fst]
  exact ⟨rfl, rfl⟩

end Crossterm
